import Mathlib

/-!
Shallow embedding of the `pitches` crate (equal-tempered pitches, notes and
intervals, A₄ = 440 Hz): `src/lib.rs`, `src/note.rs`, `src/interval.rs`.
Machine integers (`u8`) never overflow in the modelled code paths, so indices
are modelled with `Nat`/`Int`; the panicking `PITCHES[index]` lookup and the
panicking `unwrap`s are modelled with `Option` (`none` = panic); the `f64`
frequency constants are modelled as exact rationals and the `f64` logarithm
of `Interval::new` as the real logarithm.
-/

set_option maxRecDepth 65536

deriving instance DecidableEq for Except

namespace Pitches

/-- The source's `f64` literals all have two decimal places; each is the exact
rational `centihertz / 100`. `FREQUENCIES` below divides every entry of this
list by 100. -/
def CENTIFREQUENCIES : List ℕ := [
  1635, 1732, 1835, 1945, 2060, 2183, 2312, 2450, 2596, 2750, 2914, 3087,
  3270, 3465, 3671, 3889, 4120, 4365, 4625, 4900, 5191, 5500, 5827, 6174,
  6541, 6930, 7342, 7778, 8241, 8731, 9250, 9800, 10383, 11000, 11654, 12347,
  13081, 13859, 14683, 15556, 16481, 17461, 18500, 19600, 20765, 22000, 23308, 24694,
  26163, 27718, 29366, 31113, 32963, 34923, 36999, 39200, 41530, 44000, 46616, 49388,
  52325, 55437, 58733, 62225, 65925, 69846, 73999, 78399, 83061, 88000, 93233, 98777,
  104650, 110873, 117466, 124451, 131851, 139691, 147998, 156798, 166122, 176000, 186466, 197553,
  209300, 221746, 234932, 248902, 263702, 279383, 295996, 313596, 332244, 352000, 372931, 395107,
  418601, 443492, 469863, 497803, 527404, 558765, 591991, 627193, 664488, 704000, 745862, 790213]

/-- `FREQUENCIES` from `src/lib.rs`: the 108 reference frequencies of the
equal-tempered scale, A₄ = 440 Hz, as exact rationals (e.g. the source's
`16.35` is `1635 / 100`, written with `Rat.divInt` so that the table
evaluates by kernel reduction). -/
def FREQUENCIES : List ℚ := CENTIFREQUENCIES.map (fun n => Rat.divInt (n : ℤ) 100)

/-- `Pitch` from `src/lib.rs`: a validated index into `FREQUENCIES`. The `u8`
index of every constructible `Pitch` (the `PITCHES` enumeration covers indices
0..108) is in range, so it is modelled as `Fin 108`. -/
structure Pitch where
  index : Fin 108
deriving DecidableEq, Fintype

/-- `Pitch::frequency`: `FREQUENCIES[self.index as usize]` (the index is
always in bounds, so the default never applies). -/
def Pitch.frequency (p : Pitch) : ℚ := FREQUENCIES.getD p.index.val 0

/-- `Pitch::number`: `self.index % 12`, the chromatic number. -/
def Pitch.number (p : Pitch) : Nat := p.index.val % 12

/-- `Error` from `src/note.rs`. -/
inductive Error where
  | IncorrectLetter
  | IncorrectAccidental
  | OctaveNotInRange
deriving DecidableEq, Fintype

/-- `Letter` from `src/note.rs`. -/
inductive Letter where
  | C
  | D
  | E
  | F
  | G
  | A
  | B
deriving DecidableEq, Fintype

/-- `Letter::previous` as the source writes it, including the `F => A` arm. -/
def Letter.previous : Letter → Letter
  | .C => .B
  | .D => .C
  | .E => .D
  | .F => .A
  | .G => .F
  | .A => .G
  | .B => .A

/-- `Letter::next`. -/
def Letter.next : Letter → Letter
  | .C => .D
  | .D => .E
  | .E => .F
  | .F => .G
  | .G => .A
  | .A => .B
  | .B => .C

/-- `Octave` from `src/note.rs`: the ten supported octave labels. -/
inductive Octave where
  | First
  | Second
  | Third
  | Fourth
  | Fifth
  | Sixth
  | Seventh
  | Eighth
  | Ninth
  | Tenth
deriving DecidableEq, Fintype

/-- `impl From<Octave> for u8`. -/
def Octave.toNat : Octave → Nat
  | .First => 0
  | .Second => 1
  | .Third => 2
  | .Fourth => 3
  | .Fifth => 4
  | .Sixth => 5
  | .Seventh => 6
  | .Eighth => 7
  | .Ninth => 8
  | .Tenth => 9

/-- `impl TryFrom<u8> for Octave`. -/
def Octave.tryFromNat : Nat → Except Error Octave
  | 0 => .ok .First
  | 1 => .ok .Second
  | 2 => .ok .Third
  | 3 => .ok .Fourth
  | 4 => .ok .Fifth
  | 5 => .ok .Sixth
  | 6 => .ok .Seventh
  | 7 => .ok .Eighth
  | 8 => .ok .Ninth
  | 9 => .ok .Tenth
  | _ => .error .OctaveNotInRange

/-- `Pitch::octave`: `(self.index / 12).try_into().unwrap()`; the panicking
`unwrap` is modelled as `none`. -/
def Pitch.octave? (p : Pitch) : Option Octave :=
  match Octave.tryFromNat (p.index.val / 12) with
  | .ok octave => some octave
  | .error _ => none

/-- `Accidental` from `src/note.rs`. -/
inductive Accidental where
  | None
  | Flat
  | Sharp
deriving DecidableEq, Fintype

/-- `Note` from `src/note.rs`. -/
structure Note where
  letter : Letter
  octave : Octave
  accidental : Accidental
deriving DecidableEq, Fintype

/-- `Note::new`: rejects Flat on C or F and Sharp on E or B with
`IncorrectAccidental`, otherwise returns the note as given. -/
def Note.new (letter : Letter) (octave : Octave) (accidental : Accidental) :
    Except Error Note :=
  match accidental with
  | .None => .ok ⟨letter, octave, accidental⟩
  | .Flat =>
    match letter with
    | .C | .F => .error .IncorrectAccidental
    | _ => .ok ⟨letter, octave, accidental⟩
  | .Sharp =>
    match letter with
    | .E | .B => .error .IncorrectAccidental
    | _ => .ok ⟨letter, octave, accidental⟩

/-- A note satisfies the accidental-legality invariant enforced by `Note::new`:
`Note::new` on its own fields succeeds. -/
def Note.valid (note : Note) : Bool :=
  match Note.new note.letter note.octave note.accidental with
  | .ok _ => true
  | .error _ => false

/-- `Note::enharmonic`. -/
def Note.enharmonic (note : Note) : Note :=
  match note.accidental with
  | .None => note
  | .Flat => ⟨note.letter.previous, note.octave, .Sharp⟩
  | .Sharp => ⟨note.letter.next, note.octave, .Flat⟩

/-- The natural semitone offset of a letter, the first `match` of
`impl From<Note> for Pitch`. -/
def Letter.naturalIndex : Letter → Nat
  | .C => 0
  | .D => 2
  | .E => 4
  | .F => 5
  | .G => 7
  | .A => 9
  | .B => 11

/-- The index computed by `impl From<Note> for Pitch` before the `PITCHES`
lookup: `octave * 12 + naturalIndex`, then −1 for Flat and +1 for Sharp.
The source computes it in a `u8`; every value reachable here is at most 119
and the Flat subtraction could underflow only at index 0 (letter C with Flat),
so the arithmetic is modelled over `ℤ`, where an underflow shows up as a
negative index. -/
def noteIndex (note : Note) : Int :=
  let base : Int := (Octave.toNat note.octave) * 12 + Letter.naturalIndex note.letter
  match note.accidental with
  | .None => base
  | .Flat => base - 1
  | .Sharp => base + 1

/-- `impl From<Note> for Pitch`: `PITCHES[index as usize]`, where `PITCHES[i]`
is the pitch with index `i` and an out-of-bounds lookup panics (`none` here).
A `u8` underflow of the Flat subtraction also panics and also yields `none`
(the index is negative). -/
def noteToPitch (note : Note) : Option Pitch :=
  let i := noteIndex note
  if h : 0 ≤ i ∧ i < 108 then some ⟨⟨i.toNat, by omega⟩⟩ else none

/-- `impl From<Pitch> for Note`: dispatch on the chromatic number to the fixed
natural/sharp table; the `unreachable!()` arm and the `unwrap` are modelled as
`none`. -/
def pitchToNote (pitch : Pitch) : Option Note :=
  match pitch.octave? with
  | none => none
  | some octave =>
    let r : Option (Except Error Note) :=
      match pitch.number with
      | 0 => some (Note.new .C octave .None)
      | 1 => some (Note.new .C octave .Sharp)
      | 2 => some (Note.new .D octave .None)
      | 3 => some (Note.new .D octave .Sharp)
      | 4 => some (Note.new .E octave .None)
      | 5 => some (Note.new .F octave .None)
      | 6 => some (Note.new .F octave .Sharp)
      | 7 => some (Note.new .G octave .None)
      | 8 => some (Note.new .G octave .Sharp)
      | 9 => some (Note.new .A octave .None)
      | 10 => some (Note.new .A octave .Sharp)
      | 11 => some (Note.new .B octave .None)
      | _ => none
    match r with
    | none => none
    | some (.ok note) => some note
    | some (.error _) => none

/-- The canonical sharp-preferring spelling table as the spec states it
(0=C, 1=C♯, 2=D, 3=D♯, 4=E, 5=F, 6=F♯, 7=G, 8=G♯, 9=A, 10=A♯, 11=B), written
from the spec's words to compare against `pitchToNote`. Chromatic numbers are
below 12, so the final default arm is never consulted. -/
def specCanonicalSpelling : Nat → Letter × Accidental
  | 0 => (.C, .None)
  | 1 => (.C, .Sharp)
  | 2 => (.D, .None)
  | 3 => (.D, .Sharp)
  | 4 => (.E, .None)
  | 5 => (.F, .None)
  | 6 => (.F, .Sharp)
  | 7 => (.G, .None)
  | 8 => (.G, .Sharp)
  | 9 => (.A, .None)
  | 10 => (.A, .Sharp)
  | 11 => (.B, .None)
  | _ => (.C, .None)

/-- `Interval` from `src/interval.rs`; `cents` is the wrapped `NotNan<f64>`,
idealised as a real number. -/
structure Interval where
  cents : ℝ

/-- `Interval::new`: cents = `1200.0 * (frequency_1 / frequency_0).ln() / 2.0.ln()`,
with the `f64` arithmetic idealised as real arithmetic (the `NotNan` unwrap
never panics for strictly positive finite inputs). -/
noncomputable def Interval.new (frequency_0 frequency_1 : ℝ) : Interval :=
  ⟨1200 * Real.log (frequency_1 / frequency_0) / Real.log 2⟩

/-- Claim C1, counterexample: the claim says Note-to-Pitch can fail only at an
extreme octave combined with an accidental, but the valid note C at
`Octave::Tenth` with no accidental already fails: its index is 108, one past
the 108-entry table (the table spans nine octaves while `Octave` has ten
variants). -/
theorem noteToPitch_fails_at_tenth_without_accidental :
    Note.valid ⟨Letter.C, Octave.Tenth, Accidental.None⟩ = true ∧
    (⟨Letter.C, Octave.Tenth, Accidental.None⟩ : Note).accidental = Accidental.None ∧
    noteToPitch ⟨Letter.C, Octave.Tenth, Accidental.None⟩ = none := by decide

/-- Claim C1, amended: for a valid note the Note-to-Pitch conversion fails
exactly when the octave is `Octave::Tenth` (every such index is at least 108);
for every valid note in octaves First through Ninth it succeeds, accidental or
not. -/
theorem noteToPitch_valid_fails_iff_octave_tenth :
    ∀ note : Note, Note.valid note = true →
      (noteToPitch note = none ↔ note.octave = Octave.Tenth) := by decide

/-- Claim C1, witness: the amended theorem applied to the valid note C in the
first octave, whose conversion succeeds. -/
theorem noteToPitch_valid_fails_iff_octave_tenth_witness :
    noteToPitch ⟨Letter.C, Octave.First, Accidental.None⟩ = none ↔
      (⟨Letter.C, Octave.First, Accidental.None⟩ : Note).octave = Octave.Tenth :=
  noteToPitch_valid_fails_iff_octave_tenth
    ⟨Letter.C, Octave.First, Accidental.None⟩ (by decide)

/-- Claim C2: for every pitch, Pitch-to-Note succeeds and yields the canonical
sharp-preferring spelling of the spec's table with octave = index div 12, and
Note-to-Pitch on the result returns the original pitch. -/
theorem pitchToNote_canonical_and_roundtrip :
    ∀ pitch : Pitch, ∃ octave : Octave,
      Octave.toNat octave = pitch.index.val / 12 ∧
      pitchToNote pitch = some ⟨(specCanonicalSpelling pitch.number).1, octave,
        (specCanonicalSpelling pitch.number).2⟩ ∧
      (pitchToNote pitch).bind noteToPitch = some pitch := by decide

/-- Claim C3, counterexample: `Note::new(C, Fourth, Sharp)` converts to the
pitch with frequency 138.59 Hz, not approximately 277.18 Hz (`Octave::Fourth`
has numeric value 3, so the index is 3·12 + 0 + 1 = 37; 277.18 Hz sits at
index 49, which is C♯ at `Octave::Fifth`). -/
theorem c_sharp_fourth_frequency_is_not_277_18 :
    (noteToPitch ⟨Letter.C, Octave.Fourth, Accidental.Sharp⟩).map Pitch.frequency =
      some (Rat.divInt 13859 100) ∧
    (Rat.divInt 13859 100 : ℚ) ≠ Rat.divInt 27718 100 := by decide

/-- Claim C3, amended: `Note::new(C, Fourth, Sharp)` succeeds and converts to
a Pitch whose frequency is 138.59 Hz (`Rat.divInt 13859 100`), and its
`enharmonic()` is `Note(D, Fourth, Flat)`, which converts to the same Pitch. -/
theorem c_sharp_fourth_scenario :
    Note.new Letter.C Octave.Fourth Accidental.Sharp =
      Except.ok ⟨Letter.C, Octave.Fourth, Accidental.Sharp⟩ ∧
    (noteToPitch ⟨Letter.C, Octave.Fourth, Accidental.Sharp⟩).map Pitch.frequency =
      some (Rat.divInt 13859 100) ∧
    Note.enharmonic ⟨Letter.C, Octave.Fourth, Accidental.Sharp⟩ =
      ⟨Letter.D, Octave.Fourth, Accidental.Flat⟩ ∧
    noteToPitch ⟨Letter.D, Octave.Fourth, Accidental.Flat⟩ =
      noteToPitch ⟨Letter.C, Octave.Fourth, Accidental.Sharp⟩ := by decide

/-- Claim C4: the code's `Letter::previous` maps F to A (its doc comment and
the cyclic letter order C, D, E, F, G, A, B require E), so both round-trip
identities fail at the E/F step: next(previous(F)) = B and
previous(next(E)) = A. -/
theorem letter_previous_f_returns_a :
    Letter.previous Letter.F = Letter.A ∧
    Letter.next (Letter.previous Letter.F) = Letter.B ∧
    Letter.previous (Letter.next Letter.E) = Letter.A := by decide

/-- Claim C5: for every valid note with a non-None accidental whose octave
keeps the conversion inside the table (octave below Tenth), the enharmonic
spelling converts to the same pitch, and the conversion succeeds. -/
theorem enharmonic_same_pitch :
    ∀ note : Note, Note.valid note = true → note.accidental ≠ Accidental.None →
      note.octave ≠ Octave.Tenth →
      noteToPitch (Note.enharmonic note) = noteToPitch note ∧
      (noteToPitch note).isSome = true := by decide

/-- Claim C5, witness: the theorem applied to D♭ in the fourth octave. -/
theorem enharmonic_same_pitch_witness :
    noteToPitch (Note.enharmonic ⟨Letter.D, Octave.Fourth, Accidental.Flat⟩) =
      noteToPitch ⟨Letter.D, Octave.Fourth, Accidental.Flat⟩ ∧
    (noteToPitch ⟨Letter.D, Octave.Fourth, Accidental.Flat⟩).isSome = true :=
  enharmonic_same_pitch ⟨Letter.D, Octave.Fourth, Accidental.Flat⟩
    (by decide) (by decide) (by decide)

/-- Claim C6: `Note::new` fails, always with `IncorrectAccidental`, exactly
when the accidental is Flat on C or F or Sharp on E or B; in every other case
it returns the note with exactly the given letter, octave and accidental. -/
theorem note_new_incorrect_accidental_iff :
    ∀ (letter : Letter) (octave : Octave) (accidental : Accidental),
      (Note.new letter octave accidental = Except.error Error.IncorrectAccidental ↔
        ((accidental = Accidental.Flat ∧ (letter = Letter.C ∨ letter = Letter.F)) ∨
         (accidental = Accidental.Sharp ∧ (letter = Letter.E ∨ letter = Letter.B)))) ∧
      (Note.new letter octave accidental = Except.error Error.IncorrectAccidental ∨
       Note.new letter octave accidental = Except.ok ⟨letter, octave, accidental⟩) := by
  decide

/-- Claim C7: the frequency table is strictly increasing — for pitches with
indices i < j the frequency at i is below the frequency at j. -/
theorem frequency_strictMono (p q : Pitch) (h : p.index < q.index) :
    Pitch.frequency p < Pitch.frequency q := by
  have adjacent : ∀ i : Fin 107,
      Pitch.frequency ⟨i.castSucc⟩ < Pitch.frequency ⟨i.succ⟩ := by decide
  have mono : StrictMono (fun i : Fin (107 + 1) => Pitch.frequency ⟨i⟩) :=
    Fin.strictMono_iff_lt_succ.mpr adjacent
  exact mono h

/-- Claim C7, witness: the theorem applied to the first two pitches. -/
theorem frequency_strictMono_witness :
    Pitch.frequency ⟨0⟩ < Pitch.frequency ⟨1⟩ :=
  frequency_strictMono ⟨0⟩ ⟨1⟩ (by decide)

/-- Claim C8: for strictly positive frequencies, `Interval::new` computes
cents = 1200·log₂(f₁/f₀); hence swapping the frequencies negates the cents,
and the interval between a frequency and itself is 0 cents. -/
theorem interval_new_cents_spec (frequency_0 frequency_1 : ℝ)
    (h0 : 0 < frequency_0) (h1 : 0 < frequency_1) :
    (Interval.new frequency_0 frequency_1).cents =
      1200 * Real.log (frequency_1 / frequency_0) / Real.log 2 ∧
    (Interval.new frequency_0 frequency_1).cents =
      -(Interval.new frequency_1 frequency_0).cents ∧
    (Interval.new frequency_0 frequency_0).cents = 0 := by
  refine ⟨rfl, ?_, ?_⟩
  · show 1200 * Real.log (frequency_1 / frequency_0) / Real.log 2 =
      -(1200 * Real.log (frequency_0 / frequency_1) / Real.log 2)
    rw [Real.log_div h1.ne' h0.ne', Real.log_div h0.ne' h1.ne']
    ring
  · show 1200 * Real.log (frequency_0 / frequency_0) / Real.log 2 = 0
    rw [div_self h0.ne', Real.log_one, mul_zero, zero_div]

/-- Claim C8, witness: the theorem applied to the octave 440 Hz / 880 Hz. -/
theorem interval_new_cents_spec_witness :
    (Interval.new 440 880).cents = 1200 * Real.log (880 / 440) / Real.log 2 ∧
    (Interval.new 440 880).cents = -(Interval.new 880 440).cents ∧
    (Interval.new 440 440).cents = 0 :=
  interval_new_cents_spec 440 880 (by norm_num) (by norm_num)

/-- Claim C9: for every valid note the computed index never goes below 0 (the
Flat adjustment cannot underflow because Flat is illegal on C), and when the
octave's numeric value is at most 8 (First through Ninth) the index stays
below 108 and the conversion succeeds. -/
theorem valid_note_conversion_in_range :
    ∀ note : Note, Note.valid note = true →
      0 ≤ noteIndex note ∧
      (Octave.toNat note.octave ≤ 8 →
        noteIndex note < 108 ∧ (noteToPitch note).isSome = true) := by decide

/-- Claim C9, witness: the theorem applied to B in the ninth octave, the
topmost in-table note. -/
theorem valid_note_conversion_in_range_witness :
    0 ≤ noteIndex ⟨Letter.B, Octave.Ninth, Accidental.None⟩ ∧
    (Octave.toNat (⟨Letter.B, Octave.Ninth, Accidental.None⟩ : Note).octave ≤ 8 →
      noteIndex ⟨Letter.B, Octave.Ninth, Accidental.None⟩ < 108 ∧
      (noteToPitch ⟨Letter.B, Octave.Ninth, Accidental.None⟩).isSome = true) :=
  valid_note_conversion_in_range ⟨Letter.B, Octave.Ninth, Accidental.None⟩ (by decide)

/-- Claim C10: `enharmonic` preserves the accidental-legality invariant: the
note it returns would again be accepted by `Note::new`. -/
theorem enharmonic_preserves_validity :
    ∀ note : Note, Note.valid note = true →
      Note.valid (Note.enharmonic note) = true := by decide

/-- Claim C10, witness: the theorem applied to C♯ in the first octave. -/
theorem enharmonic_preserves_validity_witness :
    Note.valid (Note.enharmonic ⟨Letter.C, Octave.First, Accidental.Sharp⟩) = true :=
  enharmonic_preserves_validity ⟨Letter.C, Octave.First, Accidental.Sharp⟩ (by decide)

end Pitches
